import Mathlib

/-!
Shallow embedding of the task-list frontend:
  - src/frontend/src/api/tasks.js  (API client: getTasks, createTask, toggleTask, deleteTask)
  - src/frontend/src/App.jsx       (list controller App and row view TaskItem)

The network is modelled as an oracle mapping HTTP requests to outcomes
(rejection or a response), response bodies are modelled through the outcome of
response.json() (a parsed JSON value, or a non-JSON payload), and each event
handler of the controller is a state transformer that also records the HTTP
requests it issued and whether an unhandled rejection escaped.
-/

/-- JSON values, as produced by response.json() and serialized by JSON.stringify. -/
inductive Json where
  | null
  | bool (b : Bool)
  | num (n : Int)
  | str (s : String)
  | arr (elems : List Json)
  | obj (fields : List (String × Json))
deriving Repr, Inhabited

/-- JavaScript truthiness of a value (objects and arrays are always truthy). -/
def Json.truthy : Json → Bool
  | .null => false
  | .bool b => b
  | .num n => n != 0
  | .str s => s != ""
  | .arr _ => true
  | .obj _ => true

/-- JavaScript property access o.k; a missing field (undefined) is collapsed to null. -/
def Json.getField : Json → String → Json
  | .obj fields, k =>
    match fields.find? (fun p => p.1 == k) with
    | some p => p.2
    | none => .null
  | _, _ => .null

/-- JavaScript String() conversion, as performed by a template literal on an
interpolated value (only primitive values are ever interpolated here). -/
def Json.jsToString : Json → String
  | .null => "null"
  | .bool true => "true"
  | .bool false => "false"
  | .num n => toString n
  | .str s => s
  | .arr _ => ""
  | .obj _ => "[object Object]"

/-- HTTP request methods used by the client. -/
inductive Method where
  | GET
  | POST
  | PUT
  | DELETE
deriving Repr, DecidableEq

/-- An HTTP request as assembled by a fetch call: method, URL, headers, and the
JSON value the body was stringified from (none when no body is sent). -/
structure Request where
  method : Method
  url : String
  headers : List (String × String) := []
  body : Option Json := none
deriving Repr

/-- A response body as observed through response.json(): a parsed JSON value,
or a payload that is not valid JSON (response.json() rejects on it). -/
inductive Body where
  | json (v : Json)
  | notJson (raw : String)
deriving Repr

/-- An HTTP response: a status code and a body. -/
structure Response where
  status : Nat
  body : Body
deriving Repr

/-- The outcome of awaiting fetch(): a network error (the promise rejects), or
a response (whatever its status code). -/
inductive FetchResult where
  | networkError
  | success (resp : Response)
deriving Repr

/-- The network, as an oracle from requests to fetch outcomes. -/
abbrev Fetch := Request → FetchResult

/-- The two ways an API-client operation can reject: the fetch itself rejected
(network error), or response.json() rejected (non-JSON body). -/
inductive ApiError where
  | network
  | parse
deriving Repr, DecidableEq

/-- const API_URL = 'http://localhost:3001/api' (tasks.js line 1). -/
def API_URL : String := "http://localhost:3001/api"

/-- The request issued by getTasks: GET API_URL/tasks. -/
def listRequest : Request :=
  { method := .GET, url := API_URL ++ "/tasks" }

/-- The request issued by createTask: POST API_URL/tasks with a JSON body
holding the title, and a Content-Type header. -/
def createRequest (title : String) : Request :=
  { method := .POST
    url := API_URL ++ "/tasks"
    headers := [("Content-Type", "application/json")]
    body := some (Json.obj [("title", Json.str title)]) }

/-- The request issued by toggleTask: PUT API_URL/tasks/id, the id interpolated
by a template literal; no body. -/
def toggleRequest (id : Json) : Request :=
  { method := .PUT, url := API_URL ++ "/tasks/" ++ id.jsToString }

/-- The request issued by deleteTask: DELETE API_URL/tasks/id; no body. -/
def deleteRequest (id : Json) : Request :=
  { method := .DELETE, url := API_URL ++ "/tasks/" ++ id.jsToString }

/-- response.json(): the parsed value on a JSON body, a rejection otherwise.
The status code is never consulted. -/
def Response.jsonBody : Response → Except ApiError Json
  | ⟨_, .json v⟩ => .ok v
  | ⟨_, .notJson _⟩ => .error .parse

/-- getTasks (tasks.js lines 3-6): fetch GET /tasks, then response.json(). -/
def getTasks (fetch : Fetch) : Except ApiError Json :=
  match fetch listRequest with
  | .networkError => .error .network
  | .success resp => resp.jsonBody

/-- createTask (tasks.js lines 8-17): fetch POST /tasks with body
JSON.stringify of an object holding the title, then response.json(). -/
def createTask (fetch : Fetch) (title : String) : Except ApiError Json :=
  match fetch (createRequest title) with
  | .networkError => .error .network
  | .success resp => resp.jsonBody

/-- toggleTask (tasks.js lines 19-24): fetch PUT /tasks/id, then response.json(). -/
def toggleTask (fetch : Fetch) (id : Json) : Except ApiError Json :=
  match fetch (toggleRequest id) with
  | .networkError => .error .network
  | .success _resp => _resp.jsonBody

/-- deleteTask (tasks.js lines 26-30): fetch DELETE /tasks/id; the response is
discarded entirely (no response.json(), no status inspection), so the call
returns no value and only a network error can reject it. -/
def deleteTask (fetch : Fetch) (id : Json) : Except ApiError Unit :=
  match fetch (deleteRequest id) with
  | .networkError => .error .network
  | .success _resp => .ok ()

/-- The component state of App (App.jsx lines 10-11): the tasks list (the raw
value setTasks received, initially the empty array) and the draft string. -/
structure AppState where
  tasks : Json
  newTask : String
deriving Repr

/-- useState initial values: tasks = [], newTask = '' (App.jsx lines 10-11). -/
def initialAppState : AppState :=
  { tasks := Json.arr [], newTask := "" }

/-- The observable outcome of running one event handler to completion: the
final component state, the HTTP requests issued in order, and the unhandled
rejection when one escaped. -/
structure StepResult where
  state : AppState
  calls : List Request
  err : Option ApiError
deriving Repr

/-- fetchTasks (App.jsx lines 17-20): await getTasks(), then setTasks(data).
If getTasks rejects, setTasks never runs and the rejection escapes. -/
def fetchTasks (fetch : Fetch) (s : AppState) : StepResult :=
  match getTasks fetch with
  | .error e => { state := s, calls := [listRequest], err := some e }
  | .ok data => { state := { s with tasks := data }, calls := [listRequest], err := none }

/-- JavaScript String.prototype.trim, modelled on the character list: strip
leading and trailing whitespace. -/
def jsTrim (s : String) : String :=
  String.mk (((s.data.dropWhile Char.isWhitespace).reverse.dropWhile Char.isWhitespace).reverse)

/-- handleAddTask (App.jsx lines 22-29): if the trimmed draft is empty (falsy),
return immediately; otherwise await createTask(newTask) with the untrimmed
draft, clear the draft, and run fetchTasks. A rejection of createTask skips
both the clearing and the refresh. -/
def handleAddTask (fetch : Fetch) (s : AppState) : StepResult :=
  if jsTrim s.newTask = "" then
    { state := s, calls := [], err := none }
  else
    match createTask fetch s.newTask with
    | .error e => { state := s, calls := [createRequest s.newTask], err := some e }
    | .ok _created =>
      let cleared : AppState := { s with newTask := "" }
      let r := fetchTasks fetch cleared
      { state := r.state, calls := createRequest s.newTask :: r.calls, err := r.err }

/-- handleToggleTask (App.jsx lines 31-34): await toggleTask(id), then run
fetchTasks. A rejection of toggleTask skips the refresh. -/
def handleToggleTask (fetch : Fetch) (s : AppState) (id : Json) : StepResult :=
  match toggleTask fetch id with
  | .error e => { state := s, calls := [toggleRequest id], err := some e }
  | .ok _updated =>
    let r := fetchTasks fetch s
    { state := r.state, calls := toggleRequest id :: r.calls, err := r.err }

/-- handleDeleteTask (App.jsx lines 36-39): await deleteTask(id), then run
fetchTasks. A rejection of deleteTask skips the refresh. -/
def handleDeleteTask (fetch : Fetch) (s : AppState) (id : Json) : StepResult :=
  match deleteTask fetch id with
  | .error e => { state := s, calls := [deleteRequest id], err := some e }
  | .ok _ =>
    let r := fetchTasks fetch s
    { state := r.state, calls := deleteRequest id :: r.calls, err := r.err }

/-- The rendered output of one TaskItem row: the checkbox checked flag, the
class on the title span, the rendered title value, and the events the two
controls emit when activated. -/
structure TaskItemView (α : Type) where
  checked : Bool
  spanClassName : String
  titleText : Json
  onCheckboxChange : Unit → α
  onDeleteClick : Unit → α

/-- TaskItem (components/TaskItem.jsx): a pure function of the task and the two
callbacks. checked is task.completed (coerced), the span class is the
strikethrough pair exactly when task.completed is truthy, the checkbox change
handler invokes onToggle(task.id) and the delete button invokes
onDelete(task.id). -/
def TaskItem {α : Type} (task : Json) (onToggle onDelete : Json → α) : TaskItemView α :=
  { checked := (task.getField "completed").truthy
    spanClassName :=
      if (task.getField "completed").truthy then "line-through text-gray-500" else ""
    titleText := task.getField "title"
    onCheckboxChange := fun _ => onToggle (task.getField "id")
    onDeleteClick := fun _ => onDelete (task.getField "id") }

/-- The intent a row emits to the controller: the wired callbacks are
handleToggleTask and handleDeleteTask, each applied to the id the row passed. -/
inductive Msg where
  | toggleIntent (id : Json)
  | deleteIntent (id : Json)
deriving Repr

/-- The rendered list (App.jsx lines 63-72): tasks.map over TaskItem. Defined
when the tasks state is an array (tasks.map would throw otherwise). -/
def renderTaskList (s : AppState) : Option (List (TaskItemView Msg)) :=
  match s.tasks with
  | .arr ts => some (ts.map (fun t => TaskItem t Msg.toggleIntent Msg.deleteIntent))
  | _ => none

/-! ### Concrete networks and states used to instantiate the theorems -/

/-- A server list response: one task, not completed. -/
def demoTasksJson : Json :=
  Json.arr [Json.obj [("id", Json.num 1), ("title", Json.str "Buy milk"), ("completed", Json.bool false)]]

/-- A server created/updated-task response. -/
def demoCreatedJson : Json :=
  Json.obj [("id", Json.num 2), ("title", Json.str "Write spec"), ("completed", Json.bool false)]

/-- A network where every operation succeeds with a 2xx response. -/
def demoFetch : Fetch := fun r =>
  match r.method with
  | .GET => .success ⟨200, .json demoTasksJson⟩
  | .POST => .success ⟨201, .json demoCreatedJson⟩
  | .PUT => .success ⟨200, .json demoCreatedJson⟩
  | .DELETE => .success ⟨204, .notJson ""⟩

/-- The same bodies as demoFetch, but served with error status codes. -/
def demoFetchErrStatus : Fetch := fun r =>
  match r.method with
  | .GET => .success ⟨404, .json demoTasksJson⟩
  | .POST => .success ⟨500, .json demoCreatedJson⟩
  | .PUT => .success ⟨503, .json demoCreatedJson⟩
  | .DELETE => .success ⟨500, .notJson ""⟩

/-- A state with a draft whose trimmed form is non-empty. -/
def draftState : AppState :=
  { tasks := Json.arr [], newTask := "  Write spec  " }

/-- A state with a whitespace-only draft. -/
def wsDraftState : AppState :=
  { tasks := Json.arr [], newTask := "   " }

/-! ### Claims -/

/-- C1: after each mutating operation (add, toggle, delete) the controller
follows the mutation request with a full list refresh, and the tasks state is
replaced wholesale by exactly the sequence the server returned for that
refresh - in the server's order, with no client-side reordering or filtering
(it is the returned value itself). -/
theorem mutation_refreshes_wholesale (fetch : Fetch) (s : AppState) (id c w v : Json)
    (hlist : getTasks fetch = .ok v) :
    (jsTrim s.newTask ≠ "" → createTask fetch s.newTask = .ok c →
      (handleAddTask fetch s).state.tasks = v ∧
      (handleAddTask fetch s).calls = [createRequest s.newTask, listRequest]) ∧
    (toggleTask fetch id = .ok w →
      (handleToggleTask fetch s id).state.tasks = v ∧
      (handleToggleTask fetch s id).calls = [toggleRequest id, listRequest]) ∧
    (deleteTask fetch id = .ok () →
      (handleDeleteTask fetch s id).state.tasks = v ∧
      (handleDeleteTask fetch s id).calls = [deleteRequest id, listRequest]) := by
  refine ⟨fun hne hc => ?_, fun ht => ?_, fun hd => ?_⟩
  · simp [handleAddTask, if_neg hne, hc, fetchTasks, hlist]
  · simp [handleToggleTask, ht, fetchTasks, hlist]
  · simp [handleDeleteTask, hd, fetchTasks, hlist]

/-- Witness for C1: concrete add and toggle against demoFetch. -/
theorem mutation_refreshes_wholesale_witness :
    ((handleAddTask demoFetch draftState).state.tasks = demoTasksJson ∧
      (handleAddTask demoFetch draftState).calls =
        [createRequest "  Write spec  ", listRequest]) ∧
    ((handleToggleTask demoFetch draftState (Json.num 1)).state.tasks = demoTasksJson ∧
      (handleToggleTask demoFetch draftState (Json.num 1)).calls =
        [toggleRequest (Json.num 1), listRequest]) :=
  ⟨(mutation_refreshes_wholesale demoFetch draftState (Json.num 1) demoCreatedJson
      demoCreatedJson demoTasksJson rfl).1 (by decide) rfl,
   (mutation_refreshes_wholesale demoFetch draftState (Json.num 1) demoCreatedJson
      demoCreatedJson demoTasksJson rfl).2.1 rfl⟩

/-- C2: submitting with a draft whose trimmed form is empty is a no-op: no HTTP
request is issued (so createTask is not invoked), the state - and hence the
rendered task list - is unchanged, and no error escapes. -/
theorem empty_draft_submit_noop (fetch : Fetch) (s : AppState)
    (h : jsTrim s.newTask = "") :
    handleAddTask fetch s = { state := s, calls := [], err := none } ∧
    renderTaskList (handleAddTask fetch s).state = renderTaskList s := by
  have h1 : handleAddTask fetch s = { state := s, calls := [], err := none } := by
    simp [handleAddTask, h]
  exact ⟨h1, by rw [h1]⟩

/-- Witness for C2: a whitespace-only draft against demoFetch. -/
theorem empty_draft_submit_noop_witness :
    handleAddTask demoFetch wsDraftState = { state := wsDraftState, calls := [], err := none } :=
  (empty_draft_submit_noop demoFetch wsDraftState (by decide)).1

/-- C3: no API-client operation inspects the HTTP status code: for two
responses with identical bodies, getTasks, createTask and toggleTask return
identical values whatever the two status codes, and a response whose body is
JSON parses to a success for the caller even when its status is non-2xx. -/
theorem api_ignores_status (f1 f2 : Fetch) (sl1 sl2 sc1 sc2 sg1 sg2 : Nat)
    (bl bc bt : Body) (t : String) (id : Json)
    (h1 : f1 listRequest = .success ⟨sl1, bl⟩)
    (h2 : f2 listRequest = .success ⟨sl2, bl⟩)
    (h3 : f1 (createRequest t) = .success ⟨sc1, bc⟩)
    (h4 : f2 (createRequest t) = .success ⟨sc2, bc⟩)
    (h5 : f1 (toggleRequest id) = .success ⟨sg1, bt⟩)
    (h6 : f2 (toggleRequest id) = .success ⟨sg2, bt⟩) :
    getTasks f1 = getTasks f2 ∧
    createTask f1 t = createTask f2 t ∧
    toggleTask f1 id = toggleTask f2 id ∧
    (∀ v, bl = .json v → getTasks f1 = .ok v) := by
  refine ⟨?_, ?_, ?_, fun v hv => ?_⟩
  · simp only [getTasks, h1, h2]; cases bl <;> rfl
  · simp only [createTask, h3, h4]; cases bc <;> rfl
  · simp only [toggleTask, h5, h6]; cases bt <;> rfl
  · simp only [getTasks, h1, hv, Response.jsonBody]

/-- Witness for C3: a 404/500/503 network with the same bodies as the 2xx one
gives identical API results, and its 404 list response still parses as success. -/
theorem api_ignores_status_witness :
    (getTasks demoFetch = getTasks demoFetchErrStatus ∧
      createTask demoFetch "x" = createTask demoFetchErrStatus "x" ∧
      toggleTask demoFetch (Json.num 1) = toggleTask demoFetchErrStatus (Json.num 1)) ∧
    getTasks demoFetchErrStatus = .ok demoTasksJson := by
  have h := api_ignores_status demoFetch demoFetchErrStatus 200 404 201 500 200 503
    (.json demoTasksJson) (.json demoCreatedJson) (.json demoCreatedJson)
    "x" (Json.num 1) rfl rfl rfl rfl rfl rfl
  exact ⟨⟨h.1, h.2.1, h.2.2.1⟩, h.1 ▸ h.2.2.2 demoTasksJson rfl⟩

/-- A network like demoFetch except that the create (POST) response body
differs; used to show the create response is never consulted. -/
def demoFetchAltCreate : Fetch := fun r =>
  match r.method with
  | .POST => .success ⟨201, .json (Json.obj
      [("id", Json.num 99), ("title", Json.str "other"), ("completed", Json.bool true)])⟩
  | _ => demoFetch r

/-- A network whose every response is a 200 with a non-JSON (HTML) body. -/
def demoFetchHtml : Fetch := fun _ => .success ⟨200, .notJson "<html>"⟩

/-- C4: with a draft whose trimmed form is non-empty, submit calls createTask
on the draft, clears the draft to the empty string, and unconditionally
triggers a full refresh; the created-task response is never used to update
local state (any network agreeing on everything but the create response body
produces the identical outcome). -/
theorem nonempty_draft_submit (fetch : Fetch) (s : AppState) (c v : Json)
    (hne : jsTrim s.newTask ≠ "") (hc : createTask fetch s.newTask = .ok c)
    (hl : getTasks fetch = .ok v) :
    (handleAddTask fetch s).calls = [createRequest s.newTask, listRequest] ∧
    (handleAddTask fetch s).state.newTask = "" ∧
    (handleAddTask fetch s).state.tasks = v ∧
    (∀ (f2 : Fetch) (c2 : Json), createTask f2 s.newTask = .ok c2 →
      getTasks f2 = getTasks fetch →
      handleAddTask f2 s = handleAddTask fetch s) := by
  refine ⟨?_, ?_, ?_, fun f2 c2 hc2 hl2 => ?_⟩
  · simp [handleAddTask, if_neg hne, hc, fetchTasks, hl]
  · simp [handleAddTask, if_neg hne, hc, fetchTasks, hl]
  · simp [handleAddTask, if_neg hne, hc, fetchTasks, hl]
  · simp [handleAddTask, if_neg hne, hc, hc2, fetchTasks, hl2, hl]

/-- Witness for C4: the changed create response leaves the outcome identical. -/
theorem nonempty_draft_submit_witness :
    (handleAddTask demoFetch draftState).calls =
      [createRequest "  Write spec  ", listRequest] ∧
    (handleAddTask demoFetch draftState).state.newTask = "" ∧
    handleAddTask demoFetchAltCreate draftState = handleAddTask demoFetch draftState := by
  have h := nonempty_draft_submit demoFetch draftState demoCreatedJson demoTasksJson
    (by decide) rfl rfl
  exact ⟨h.1, h.2.1, h.2.2.2 demoFetchAltCreate
    (Json.obj [("id", Json.num 99), ("title", Json.str "other"), ("completed", Json.bool true)])
    rfl rfl⟩

/-- C5: getTasks rejects exactly when the fetch suffers a network error or the
response body is not JSON; on such a failure the rejection escapes fetchTasks
unhandled and the state is unchanged, and the tasks state is written only on a
successful parse. -/
theorem listTasks_failure_modes (fetch : Fetch) (s : AppState) :
    ((∃ e, getTasks fetch = .error e) ↔
      (fetch listRequest = .networkError ∨
        ∃ st raw, fetch listRequest = .success ⟨st, .notJson raw⟩)) ∧
    (∀ e, getTasks fetch = .error e →
      (fetchTasks fetch s).err = some e ∧ (fetchTasks fetch s).state = s) ∧
    (∀ v, getTasks fetch = .ok v →
      (fetchTasks fetch s).err = none ∧ (fetchTasks fetch s).state.tasks = v) := by
  refine ⟨⟨?_, ?_⟩, fun e he => ?_, fun v hv => ?_⟩
  · rintro ⟨e, he⟩
    cases hf : fetch listRequest with
    | networkError => exact Or.inl rfl
    | success resp =>
      obtain ⟨st, b⟩ := resp
      cases b with
      | json v => simp [getTasks, hf, Response.jsonBody] at he
      | notJson raw => exact Or.inr ⟨st, raw, rfl⟩
  · rintro (hf | ⟨st, raw, hf⟩)
    · exact ⟨.network, by simp [getTasks, hf]⟩
    · exact ⟨.parse, by simp [getTasks, hf, Response.jsonBody]⟩
  · simp [fetchTasks, he]
  · simp [fetchTasks, hv]

/-- Witness for C5: a 200 response with an HTML body makes getTasks reject
with a parse error, which escapes fetchTasks while the state stays put. -/
theorem listTasks_failure_modes_witness :
    (demoFetchHtml listRequest = .networkError ∨
      ∃ st raw, demoFetchHtml listRequest = .success ⟨st, .notJson raw⟩) ∧
    (fetchTasks demoFetchHtml draftState).err = some .parse ∧
    (fetchTasks demoFetchHtml draftState).state = draftState := by
  have h := listTasks_failure_modes demoFetchHtml draftState
  exact ⟨h.1.mp ⟨.parse, rfl⟩, h.2.1 .parse rfl⟩

/-- C6: the row view is a pure function of the task and the two callbacks: the
strikethrough class is on the title span exactly when task.completed is true
(the only branch), the checkbox reflects completed, its change event emits
onToggle(task.id), and the delete button emits onDelete(task.id). -/
theorem TaskItem_renders_task {α : Type} (onToggle onDelete : Json → α)
    (i tl : Json) (c : Bool) :
    (TaskItem (Json.obj [("id", i), ("title", tl), ("completed", Json.bool c)])
        onToggle onDelete).checked = c ∧
    ((TaskItem (Json.obj [("id", i), ("title", tl), ("completed", Json.bool c)])
        onToggle onDelete).spanClassName = "line-through text-gray-500" ↔ c = true) ∧
    ((TaskItem (Json.obj [("id", i), ("title", tl), ("completed", Json.bool c)])
        onToggle onDelete).spanClassName = "" ↔ c = false) ∧
    (TaskItem (Json.obj [("id", i), ("title", tl), ("completed", Json.bool c)])
        onToggle onDelete).titleText = tl ∧
    (TaskItem (Json.obj [("id", i), ("title", tl), ("completed", Json.bool c)])
        onToggle onDelete).onCheckboxChange () = onToggle i ∧
    (TaskItem (Json.obj [("id", i), ("title", tl), ("completed", Json.bool c)])
        onToggle onDelete).onDeleteClick () = onDelete i := by
  cases c <;> simp [TaskItem, Json.getField, Json.truthy]

/-- C7: deleteTask issues DELETE /tasks/id with no body and discards the
response entirely: any response at all (whatever its status or body) yields a
valueless success, and only a network error can make it reject. -/
theorem deleteTask_discards_response (fetch : Fetch) (id : Json) (resp : Response) :
    (deleteRequest id).method = .DELETE ∧
    (deleteRequest id).url = API_URL ++ "/tasks/" ++ id.jsToString ∧
    (deleteRequest id).body = none ∧
    (fetch (deleteRequest id) = .success resp → deleteTask fetch id = .ok ()) ∧
    (fetch (deleteRequest id) = .networkError → deleteTask fetch id = .error .network) := by
  refine ⟨rfl, rfl, rfl, fun h => ?_, fun h => ?_⟩ <;> simp [deleteTask, h]

/-- Witness for C7: a 500 response with a non-JSON body still reads as success. -/
theorem deleteTask_discards_response_witness :
    deleteTask demoFetchErrStatus (Json.num 1) = .ok () :=
  (deleteTask_discards_response demoFetchErrStatus (Json.num 1)
    ⟨500, .notJson ""⟩).2.2.2.1 rfl

/-- Frame fact: a refresh either leaves the tasks state alone (on a rejected
getTasks) or installs exactly the value getTasks returned. -/
lemma fetchTasks_tasks_frame (fetch : Fetch) (s : AppState) :
    (fetchTasks fetch s).state.tasks = s.tasks ∨
      ∃ v, getTasks fetch = .ok v ∧ (fetchTasks fetch s).state.tasks = v := by
  cases hg : getTasks fetch with
  | error e => exact Or.inl (by simp [fetchTasks, hg])
  | ok v => exact Or.inr ⟨v, rfl, by simp [fetchTasks, hg]⟩

/-- Frame fact: a refresh never touches the draft buffer. -/
lemma fetchTasks_newTask_frame (fetch : Fetch) (s : AppState) :
    (fetchTasks fetch s).state.newTask = s.newTask := by
  cases hg : getTasks fetch <;> simp [fetchTasks, hg]

/-- C8: the tasks state is written exclusively by the refresh completion
handler: in each of mount (fetchTasks), add, toggle and delete, the tasks
state either keeps its previous value or is exactly the value a successful
getTasks delivered; no other code path writes it. -/
theorem tasks_written_only_by_refresh (fetch : Fetch) (s : AppState) (id : Json) :
    ((fetchTasks fetch s).state.tasks = s.tasks ∨
      ∃ v, getTasks fetch = .ok v ∧ (fetchTasks fetch s).state.tasks = v) ∧
    ((handleAddTask fetch s).state.tasks = s.tasks ∨
      ∃ v, getTasks fetch = .ok v ∧ (handleAddTask fetch s).state.tasks = v) ∧
    ((handleToggleTask fetch s id).state.tasks = s.tasks ∨
      ∃ v, getTasks fetch = .ok v ∧ (handleToggleTask fetch s id).state.tasks = v) ∧
    ((handleDeleteTask fetch s id).state.tasks = s.tasks ∨
      ∃ v, getTasks fetch = .ok v ∧ (handleDeleteTask fetch s id).state.tasks = v) := by
  refine ⟨fetchTasks_tasks_frame fetch s, ?_, ?_, ?_⟩
  · by_cases hif : jsTrim s.newTask = ""
    · exact Or.inl (by simp [handleAddTask, hif])
    · cases hc : createTask fetch s.newTask with
      | error e => exact Or.inl (by simp [handleAddTask, hif, hc])
      | ok c =>
        have h := fetchTasks_tasks_frame fetch { s with newTask := "" }
        simpa [handleAddTask, hif, hc] using h
  · cases ht : toggleTask fetch id with
    | error e => exact Or.inl (by simp [handleToggleTask, ht])
    | ok w =>
      have h := fetchTasks_tasks_frame fetch s
      simpa [handleToggleTask, ht] using h
  · cases hd : deleteTask fetch id with
    | error e => exact Or.inl (by simp [handleDeleteTask, hd])
    | ok u =>
      have h := fetchTasks_tasks_frame fetch s
      simpa [handleDeleteTask, hd] using h

/-- C9: trimming is used only for the emptiness check: when the trimmed draft
is non-empty, the POST request the submit handler issues carries the draft
verbatim - untrimmed, leading and trailing whitespace included - as the title
field of its JSON body. -/
theorem create_posts_untrimmed_draft (fetch : Fetch) (s : AppState)
    (hne : jsTrim s.newTask ≠ "") :
    createRequest s.newTask ∈ (handleAddTask fetch s).calls ∧
    (createRequest s.newTask).body = some (Json.obj [("title", Json.str s.newTask)]) := by
  refine ⟨?_, rfl⟩
  cases hc : createTask fetch s.newTask with
  | error e => simp [handleAddTask, if_neg hne, hc]
  | ok c => simp [handleAddTask, if_neg hne, hc]

/-- Witness for C9: the draft with surrounding whitespace is POSTed verbatim. -/
theorem create_posts_untrimmed_draft_witness :
    createRequest "  Write spec  " ∈ (handleAddTask demoFetch draftState).calls ∧
    (createRequest "  Write spec  ").body =
      some (Json.obj [("title", Json.str "  Write spec  ")]) :=
  create_posts_untrimmed_draft demoFetch draftState (by decide)

/-- C10: the draft buffer is cleared only by a successful add: toggle and
delete never touch it, a submit with an empty trimmed draft leaves it exactly
as typed (neither cleared nor trimmed), a rejected createTask leaves it as
typed, and only the successful create clears it. -/
theorem draft_cleared_only_by_successful_add (fetch : Fetch) (s : AppState) (id : Json) :
    (handleToggleTask fetch s id).state.newTask = s.newTask ∧
    (handleDeleteTask fetch s id).state.newTask = s.newTask ∧
    (jsTrim s.newTask = "" → (handleAddTask fetch s).state.newTask = s.newTask) ∧
    (∀ e, createTask fetch s.newTask = .error e →
      (handleAddTask fetch s).state.newTask = s.newTask) ∧
    (∀ c, jsTrim s.newTask ≠ "" → createTask fetch s.newTask = .ok c →
      (handleAddTask fetch s).state.newTask = "") := by
  refine ⟨?_, ?_, fun hif => ?_, fun e he => ?_, fun c hne hc => ?_⟩
  · cases ht : toggleTask fetch id <;>
      simp [handleToggleTask, ht, fetchTasks_newTask_frame]
  · cases hd : deleteTask fetch id <;>
      simp [handleDeleteTask, hd, fetchTasks_newTask_frame]
  · simp [handleAddTask, hif]
  · by_cases hif : jsTrim s.newTask = ""
    · simp [handleAddTask, hif]
    · simp [handleAddTask, hif, he]
  · simp [handleAddTask, if_neg hne, hc, fetchTasks_newTask_frame]

/-- Witness for C10: toggle keeps the draft, a whitespace-only submit keeps the
whitespace draft as typed, and a successful add clears it. -/
theorem draft_cleared_only_by_successful_add_witness :
    (handleToggleTask demoFetch draftState (Json.num 1)).state.newTask = "  Write spec  " ∧
    (handleAddTask demoFetch wsDraftState).state.newTask = "   " ∧
    (handleAddTask demoFetch draftState).state.newTask = "" := by
  have h1 := draft_cleared_only_by_successful_add demoFetch draftState (Json.num 1)
  have h2 := draft_cleared_only_by_successful_add demoFetch wsDraftState (Json.num 1)
  exact ⟨h1.1, h2.2.2.1 (by decide), h1.2.2.2.2 demoCreatedJson (by decide) rfl⟩
